import Mathlib

/-!
Verification of the EasyDoor visit/attendance lifecycle.

This file shallowly embeds the lifecycle core of the EasyDoor backend
(controllers/visitController, controllers/attendanceController, models/Visit,
models/Attendance) and proves/refutes the specification claims about it.

Modelling conventions:
* Timestamps are `Nat` milliseconds since the epoch.  The spec's duration
  computation explicitly "assumes clockOut ≥ clockIn", and theorems about
  deltas carry that hypothesis where it matters.
* Mongoose documents are structures; `null` fields are `Option`.
* The document store is an association list `List (Nat × record)` keyed by id;
  `findById`/`findOne` are `List.find?`, `findByIdAndUpdate`/`save` rewrite the
  matching entry.  Well-formed stores have distinct ids (`WFAtt`).
* Controller error responses are constructors of an error type; each keeps the
  HTTP status code the controller sends (`AttErr.status`).
* `Number` arithmetic in the work-hours virtual and the summary endpoint is
  modelled by exact rationals; JS `Math.round` is Mathlib's `round`
  (round half up), and the `|| 0` guard that maps `NaN` (division by zero)
  to `0` is modelled by the corresponding zero-denominator test.
-/

/-- Duration string computed by the `pre('save')` hooks of both models
(Visit.js lines 124-142, Attendance lines 120-136):
`hours = Math.floor(delta / 3600000)`,
`minutes = Math.floor((delta % 3600000) / 60000)`,
rendered as `"{hours}h {minutes}m"` when `hours > 0`, else `"{minutes}m"`. -/
def formatDuration (delta : Nat) : String :=
  let hours := delta / 3600000
  let minutes := delta % 3600000 / 60000
  if hours > 0 then
    toString hours ++ "h " ++ toString minutes ++ "m"
  else
    toString minutes ++ "m"

/-- The duration format as the spec words it: hours and minutes are the integer
floor of the corresponding components of the delta (total minutes split into
hours and leftover minutes). -/
def claimDuration (delta : Nat) : String :=
  let totalMinutes := delta / 60000
  let hours := totalMinutes / 60
  let minutes := totalMinutes % 60
  if hours > 0 then
    toString hours ++ "h " ++ toString minutes ++ "m"
  else
    toString minutes ++ "m"

theorem formatDuration_eq_claimDuration (delta : Nat) :
    formatDuration delta = claimDuration delta := by
  have h3600000 : (3600000 : Nat) = 60000 * 60 := by norm_num
  unfold formatDuration claimDuration
  rw [h3600000, Nat.mod_mul_right_div_self, ← Nat.div_div_eq_div_mul]

section VisitModel

/-- Visit status enumeration (Visit.js line 89-93). -/
inductive VStatus where
  | pending
  | accepted
  | cancelled
  | inProgress
  | completed
deriving DecidableEq, Repr

/-- A Visit document (Visit.js schema).  References are ids (`Nat`). -/
structure Visit where
  visitor : Nat
  employee : Nat
  expectedClockIn : Nat
  clockIn : Option Nat
  clockOut : Option Nat
  duration : Option String
  reason : String
  comment : Option String
  status : VStatus
  office : Option Nat
deriving DecidableEq, Repr

/-- First `pre('save')` hook of Visit.js (lines 124-142): when both clock
times are present, store the formatted duration and promote `in_progress`
to `completed`. -/
def visitHookA (v : Visit) : Visit :=
  match v.clockIn, v.clockOut with
  | some tin, some tout =>
      { v with
        duration := some (formatDuration (tout - tin)),
        status := if v.status = VStatus.inProgress then VStatus.completed else v.status }
  | _, _ => v

/-- Second `pre('save')` hook of Visit.js (lines 145-150): when `clockIn` is
set, `clockOut` is not, and the status is `accepted`, promote to
`in_progress`. -/
def visitHookB (v : Visit) : Visit :=
  match v.clockIn, v.clockOut with
  | some _, none =>
      if v.status = VStatus.accepted then { v with status := VStatus.inProgress } else v
  | _, _ => v

/-- `visit.save()`: both hooks run, in registration order. -/
def visitSave (v : Visit) : Visit :=
  visitHookB (visitHookA v)

/-- Error outcomes of the visit lifecycle controllers (each one 4xx response
of visitController; all are HTTP 400 except a missing record, which the
claims do not exercise per-record). -/
inductive VErr where
  | invalidStateAccept
  | invalidStateCancel
  | invalidStateClockIn
  | alreadyClockedIn
  | notClockedIn
  | alreadyClockedOut
deriving DecidableEq, Repr

/-- `acceptVisit` (visitController lines 518-549), on the record resolved by
id: only `pending` visits can be accepted. -/
def acceptVisit (v : Visit) : Except VErr Visit :=
  if v.status ≠ VStatus.pending then
    Except.error VErr.invalidStateAccept
  else
    Except.ok (visitSave { v with status := VStatus.accepted })

/-- `cancelVisit` (visitController lines 554-589): completed visits cannot be
cancelled; a truthy reason is appended to the (truthy) existing comment. -/
def cancelVisit (v : Visit) (reason : Option String) : Except VErr Visit :=
  if v.status = VStatus.completed then
    Except.error VErr.invalidStateCancel
  else
    let v1 := { v with status := VStatus.cancelled }
    let v2 :=
      match reason with
      | some r =>
          if r ≠ "" then
            match v1.comment with
            | some c =>
                if c ≠ "" then
                  { v1 with comment := some (c ++ "\nCancellation reason: " ++ r) }
                else
                  { v1 with comment := some ("Cancellation reason: " ++ r) }
            | none => { v1 with comment := some ("Cancellation reason: " ++ r) }
          else v1
      | none => v1
    Except.ok (visitSave v2)

/-- `clockInVisitor` (visitController lines 594-633). -/
def clockInVisitor (v : Visit) (now : Nat) : Except VErr Visit :=
  if v.status ≠ VStatus.accepted then
    Except.error VErr.invalidStateClockIn
  else if v.clockIn.isSome then
    Except.error VErr.alreadyClockedIn
  else
    Except.ok (visitSave { v with clockIn := some now, status := VStatus.inProgress })

/-- `clockOutVisitor` (visitController lines 638-677). -/
def clockOutVisitor (v : Visit) (now : Nat) : Except VErr Visit :=
  if v.clockIn = none then
    Except.error VErr.notClockedIn
  else if v.clockOut.isSome then
    Except.error VErr.alreadyClockedOut
  else
    Except.ok (visitSave { v with clockOut := some now })

/-- The transition relation the spec declares legal (spec 4.1). -/
def specAllowed (a b : VStatus) : Prop :=
  (a = VStatus.pending ∧ b = VStatus.accepted) ∨
  (a = VStatus.accepted ∧ b = VStatus.inProgress) ∨
  (a = VStatus.inProgress ∧ b = VStatus.completed) ∨
  (a = VStatus.pending ∧ b = VStatus.cancelled) ∨
  (a = VStatus.accepted ∧ b = VStatus.cancelled)

instance (a b : VStatus) : Decidable (specAllowed a b) := by
  unfold specAllowed; infer_instance

/-- The transitions the code actually performs: the spec's graph plus
cancellation of an in-progress visit. -/
def codeAllowed (a b : VStatus) : Prop :=
  specAllowed a b ∨ (a = VStatus.inProgress ∧ b = VStatus.cancelled)

/-- Clock fields consistent with the status, as produced by the dedicated
lifecycle operations (administrative `update` can leave this). -/
def statusClockConsistent (v : Visit) : Prop :=
  match v.status with
  | VStatus.pending => v.clockIn = none ∧ v.clockOut = none
  | VStatus.accepted => v.clockIn = none ∧ v.clockOut = none
  | VStatus.inProgress => v.clockIn.isSome ∧ v.clockOut = none
  | VStatus.cancelled => True
  | VStatus.completed => True

end VisitModel

section AttendanceModel

/-- Where an attendance session is worked from (Attendance schema enum). -/
inductive WorkingFrom where
  | office
  | home
deriving DecidableEq, Repr

/-- An Attendance document (Attendance schema).  On creation `clockIn`
defaults to `Date.now` and `isActive` to `true`. -/
structure AttendanceRec where
  employee : Nat
  workingFrom : WorkingFrom
  office : Option Nat
  clockIn : Option Nat
  clockOut : Option Nat
  duration : Option String
  isActive : Bool
deriving DecidableEq, Repr

/-- The attendance collection: id-keyed documents. -/
abbrev AttStore := List (Nat × AttendanceRec)

/-- `Attendance.findById`. -/
def findById (s : AttStore) (id : Nat) : Option AttendanceRec :=
  (s.find? (fun p => p.1 == id)).map (fun p => p.2)

/-- Persisting a modified document under its id (the write step of `save` /
`findByIdAndUpdate`). -/
def saveReplace (s : AttStore) (id : Nat) (r : AttendanceRec) : AttStore :=
  s.map (fun p => if p.1 == id then (p.1, r) else p)

/-- `Attendance.findOne({ employee, isActive: true })`. -/
def findOneActive (s : AttStore) (e : Nat) : Option (Nat × AttendanceRec) :=
  s.find? (fun p => p.2.isActive && p.2.employee == e)

/-- The uniqueness hook's query
`findOne({ employee, isActive: true, _id: { $ne: this._id } })`. -/
def hasOtherActive (s : AttStore) (id e : Nat) : Bool :=
  s.any (fun p => p.1 != id && p.2.isActive && p.2.employee == e)

/-- Error outcomes of the attendance controllers and save hooks, with the
HTTP status each one produces (`AttErr.status`).  In the spec's taxonomy:
`employeeNotFound`/`officeNotFound`/`recordNotFound`/`noActiveSession` are
NotFound, `officeRequired`/`saveOfficeRequired` Precondition,
`activeConflict`/`saveConflict` Conflict, `sessionNotActive` InvalidState,
`alreadyClockedOut` AlreadyDone. -/
inductive AttErr where
  | employeeNotFound
  | officeRequired
  | officeNotFound
  | activeConflict
  | recordNotFound
  | sessionNotActive
  | alreadyClockedOut
  | noActiveSession
  | saveOfficeRequired
  | saveConflict
deriving DecidableEq, Repr

/-- HTTP status code sent by the controller for each error. -/
def AttErr.status : AttErr → Nat
  | AttErr.employeeNotFound => 404
  | AttErr.officeRequired => 400
  | AttErr.officeNotFound => 404
  | AttErr.activeConflict => 400
  | AttErr.recordNotFound => 404
  | AttErr.sessionNotActive => 400
  | AttErr.alreadyClockedOut => 400
  | AttErr.noActiveSession => 404
  | AttErr.saveOfficeRequired => 400
  | AttErr.saveConflict => 400

/-- First `pre('save')` hook of the Attendance schema (lines 120-136): when
both clock times are present, store the formatted duration and clear
`isActive`. -/
def attDurationHook (r : AttendanceRec) : AttendanceRec :=
  match r.clockIn, r.clockOut with
  | some tin, some tout =>
      { r with
        duration := some (formatDuration (tout - tin)),
        isActive := false }
  | _, _ => r

/-- `attendance.save()`: the duration hook, then the office-required check
(lines 139-146), then — for new documents — the active-uniqueness check
(lines 149-164).  A hook error aborts the save, leaving the store unchanged. -/
def attSave (s : AttStore) (isNew : Bool) (id : Nat) (r : AttendanceRec) :
    Except AttErr AttendanceRec :=
  let r2 := attDurationHook r
  if r2.workingFrom = WorkingFrom.office ∧ r2.office = none then
    Except.error AttErr.saveOfficeRequired
  else if isNew ∧ r2.isActive ∧ hasOtherActive s id r2.employee then
    Except.error AttErr.saveConflict
  else
    Except.ok r2

/-- Existence-check collaborators (User / Office collections, by id). -/
structure AttEnv where
  users : List Nat
  offices : List Nat

/-- The `workingFrom === 'office'` referential checks of `createAttendance`
(attendanceController lines 326-339). -/
def checkOffice (env : AttEnv) (workingFrom : WorkingFrom) (office : Option Nat) :
    Option AttErr :=
  if workingFrom = WorkingFrom.office then
    match office with
    | none => some AttErr.officeRequired
    | some o => if o ∈ env.offices then none else some AttErr.officeNotFound
  else
    none

/-- `createAttendance` (attendanceController lines 313-374): employee
existence, office checks, active-session conflict check, then construction
with `clockIn = now`, `isActive = true`, `clockOut` unset, and a hooked
save inserting under a fresh id. -/
def createAttendance (env : AttEnv) (s : AttStore) (employee : Nat)
    (workingFrom : WorkingFrom) (office : Option Nat) (now fid : Nat) :
    Except AttErr (AttendanceRec × AttStore) :=
  if employee ∈ env.users then
    match checkOffice env workingFrom office with
    | some e => Except.error e
    | none =>
        if (findOneActive s employee).isSome then
          Except.error AttErr.activeConflict
        else
          let r : AttendanceRec :=
            { employee := employee,
              workingFrom := workingFrom,
              office := if workingFrom = WorkingFrom.office then office else none,
              clockIn := some now,
              clockOut := none,
              duration := none,
              isActive := true }
          match attSave s true fid r with
          | Except.error e => Except.error e
          | Except.ok r2 => Except.ok (r2, (fid, r2) :: s)
  else
    Except.error AttErr.employeeNotFound

/-- `clockOut` by record id (attendanceController lines 538-577). -/
def clockOutById (s : AttStore) (id : Nat) (now : Nat) :
    Except AttErr (AttendanceRec × AttStore) :=
  match findById s id with
  | none => Except.error AttErr.recordNotFound
  | some r =>
      if r.isActive = false then
        Except.error AttErr.sessionNotActive
      else if r.clockOut.isSome then
        Except.error AttErr.alreadyClockedOut
      else
        match attSave s false id { r with clockOut := some now } with
        | Except.error e => Except.error e
        | Except.ok r2 => Except.ok (r2, saveReplace s id r2)

/-- `clockOutByEmployee` (attendanceController lines 582-614): resolves the
employee's active record and stamps `clockOut` with no further guards. -/
def clockOutByEmployee (s : AttStore) (e : Nat) (now : Nat) :
    Except AttErr (AttendanceRec × AttStore) :=
  match findOneActive s e with
  | none => Except.error AttErr.noActiveSession
  | some (id, r) =>
      match attSave s false id { r with clockOut := some now } with
      | Except.error err => Except.error err
      | Except.ok r2 => Except.ok (r2, saveReplace s id r2)

/-- A `$set` patch body for `updateAttendance` (outer `Option` = field
present in the request body). -/
structure AttUpdate where
  employee : Option Nat := none
  workingFrom : Option WorkingFrom := none
  office : Option (Option Nat) := none
  clockIn : Option (Option Nat) := none
  clockOut : Option (Option Nat) := none
  duration : Option (Option String) := none
  isActive : Option Bool := none

/-- Applying a `$set` patch to a document. -/
def applyAttUpdate (r : AttendanceRec) (u : AttUpdate) : AttendanceRec :=
  { employee := u.employee.getD r.employee,
    workingFrom := u.workingFrom.getD r.workingFrom,
    office := u.office.getD r.office,
    clockIn := u.clockIn.getD r.clockIn,
    clockOut := u.clockOut.getD r.clockOut,
    duration := u.duration.getD r.duration,
    isActive := u.isActive.getD r.isActive }

/-- `updateAttendance` (attendanceController lines 467-508):
`findByIdAndUpdate` with `$set`; schema validators run but `pre('save')`
hooks do not, so no duration/uniqueness logic applies. -/
def updateAttendance (s : AttStore) (id : Nat) (u : AttUpdate) :
    Except AttErr (AttendanceRec × AttStore) :=
  match findById s id with
  | none => Except.error AttErr.recordNotFound
  | some r =>
      let r2 := applyAttUpdate r u
      Except.ok (r2, saveReplace s id r2)

/-- Store well-formedness: document ids are distinct. -/
def WFAtt (s : AttStore) : Prop :=
  (s.map Prod.fst).Nodup

/-- The claimed invariant: no two documents are simultaneously active for
the same employee. -/
def activeUnique (s : AttStore) : Prop :=
  s.Pairwise (fun p q =>
    ¬(p.2.isActive = true ∧ q.2.isActive = true ∧ p.2.employee = q.2.employee))

end AttendanceModel

section WorkHours

/-- Rounding a rational to two decimal places, JS style:
`Math.round(x * 100) / 100`. -/
def roundTo2 (q : ℚ) : ℚ :=
  (round (q * 100) : ℚ) / 100

/-- The `workHours` virtual (Attendance schema lines 96-100): decimal hours
of the clock delta, two decimal places, `0` when either clock time is
absent. -/
def attWorkHours (r : AttendanceRec) : ℚ :=
  match r.clockIn, r.clockOut with
  | some tin, some tout =>
      (round (((tout : ℚ) - (tin : ℚ)) / 3600000 * 100) : ℚ) / 100
  | _, _ => 0

/-- The `isOvertime` virtual (Attendance schema lines 103-105). -/
def attIsOvertime (r : AttendanceRec) : Prop :=
  attWorkHours r > 8

instance (r : AttendanceRec) : Decidable (attIsOvertime r) := by
  unfold attIsOvertime; infer_instance

/-- The summary object computed by `getEmployeeAttendanceSummary`
(attendanceController lines 653-710). -/
structure AttSummary where
  totalSessions : Nat
  completedSessions : Nat
  activeSessions : Nat
  totalWorkHours : ℚ
  averageWorkHours : ℚ
  officeWorkDays : Nat
  homeWorkDays : Nat
  patternOffice : ℤ
  patternHome : ℤ

/-- `getEmployeeAttendanceSummary`'s aggregation over the records returned by
the employee/date query.  The `|| 0` guards on the work-pattern fields map
the `NaN` produced by `0 / 0` to `0`; with exact rationals this is the
`totalSessions = 0` test. -/
def summaryOf (recs : List AttendanceRec) : AttSummary :=
  let totalSessions := recs.length
  let completedRecs := recs.filter (fun r => r.clockOut.isSome)
  let completedSessions := completedRecs.length
  let activeSessions := (recs.filter (fun r => r.isActive)).length
  let totalWH := (completedRecs.map attWorkHours).sum
  let officeWorkDays := (recs.filter (fun r => decide (r.workingFrom = WorkingFrom.office))).length
  let homeWorkDays := (recs.filter (fun r => decide (r.workingFrom = WorkingFrom.home))).length
  { totalSessions := totalSessions,
    completedSessions := completedSessions,
    activeSessions := activeSessions,
    totalWorkHours := (round (totalWH * 100) : ℚ) / 100,
    averageWorkHours :=
      if completedSessions > 0 then
        (round (totalWH / (completedSessions : ℚ) * 100) : ℚ) / 100
      else 0,
    officeWorkDays := officeWorkDays,
    homeWorkDays := homeWorkDays,
    patternOffice :=
      if totalSessions = 0 then 0
      else round ((officeWorkDays : ℚ) / (totalSessions : ℚ) * 100),
    patternHome :=
      if totalSessions = 0 then 0
      else round ((homeWorkDays : ℚ) / (totalSessions : ℚ) * 100) }

end WorkHours


section StoreLemmas

theorem WFAtt_cons {q : Nat × AttendanceRec} {t : AttStore} (h : WFAtt (q :: t)) :
    q.1 ∉ t.map Prod.fst ∧ WFAtt t := by
  unfold WFAtt at h ⊢
  rw [List.map_cons] at h
  exact List.nodup_cons.mp h

theorem findById_cons_true {q : Nat × AttendanceRec} {t : AttStore} {id : Nat}
    (hq : (q.1 == id) = true) : findById (q :: t) id = some q.2 := by
  unfold findById
  rw [List.find?_cons, hq]
  rfl

theorem findById_cons_false {q : Nat × AttendanceRec} {t : AttStore} {id : Nat}
    (hq : (q.1 == id) = false) : findById (q :: t) id = findById t id := by
  unfold findById
  rw [List.find?_cons, hq]

theorem saveReplace_cons_true {q : Nat × AttendanceRec} {t : AttStore} {id : Nat}
    {r2 : AttendanceRec} (hq : (q.1 == id) = true) :
    saveReplace (q :: t) id r2 = (q.1, r2) :: saveReplace t id r2 := by
  unfold saveReplace
  simp only [List.map_cons]
  rw [if_pos hq]

theorem saveReplace_cons_false {q : Nat × AttendanceRec} {t : AttStore} {id : Nat}
    {r2 : AttendanceRec} (hq : (q.1 == id) = false) :
    saveReplace (q :: t) id r2 = q :: saveReplace t id r2 := by
  unfold saveReplace
  simp only [List.map_cons]
  rw [if_neg (by simp [hq])]

theorem record_eq_of_findById {s : AttStore} {id : Nat} {r : AttendanceRec}
    (hWF : WFAtt s) (hlk : findById s id = some r) :
    ∀ p ∈ s, p.1 = id → p.2 = r := by
  induction s with
  | nil => intro p hp; cases hp
  | cons q t ih =>
      intro p hp hpid
      rcases List.mem_cons.mp hp with hpq | hpt
      · subst hpq
        rw [findById_cons_true (by simpa using hpid)] at hlk
        simpa using hlk
      · cases hqid : (q.1 == id) with
        | true =>
            exfalso
            have hq1 : q.1 = id := by simpa using hqid
            exact (WFAtt_cons hWF).1 (by
              rw [hq1, ← hpid]
              exact List.mem_map.mpr ⟨p, hpt, rfl⟩)
        | false =>
            rw [findById_cons_false hqid] at hlk
            exact ih (WFAtt_cons hWF).2 hlk p hpt hpid

theorem findById_of_mem {s : AttStore} (hWF : WFAtt s) {p : Nat × AttendanceRec}
    (hp : p ∈ s) : findById s p.1 = some p.2 := by
  induction s with
  | nil => cases hp
  | cons q t ih =>
      rcases List.mem_cons.mp hp with hpq | hpt
      · subst hpq
        exact findById_cons_true (by simp)
      · cases hq : (q.1 == p.1) with
        | true =>
            exfalso
            have hq1 : q.1 = p.1 := by simpa using hq
            exact (WFAtt_cons hWF).1 (by
              rw [hq1]
              exact List.mem_map.mpr ⟨p, hpt, rfl⟩)
        | false =>
            rw [findById_cons_false hq]
            exact ih (WFAtt_cons hWF).2 hpt

theorem findById_saveReplace_self {s : AttStore} {id : Nat} {r r2 : AttendanceRec}
    (h : findById s id = some r) :
    findById (saveReplace s id r2) id = some r2 := by
  induction s with
  | nil => simp [findById] at h
  | cons q t ih =>
      cases hq : (q.1 == id) with
      | true =>
          rw [saveReplace_cons_true hq]
          exact findById_cons_true hq
      | false =>
          rw [findById_cons_false hq] at h
          rw [saveReplace_cons_false hq, findById_cons_false hq]
          exact ih h

theorem findById_saveReplace_ne {s : AttStore} {id j : Nat} {r2 : AttendanceRec}
    (hne : j ≠ id) :
    findById (saveReplace s id r2) j = findById s j := by
  induction s with
  | nil => rfl
  | cons q t ih =>
      cases hq : (q.1 == id) with
      | true =>
          have hq1 : q.1 = id := by simpa using hq
          have hqj : (q.1 == j) = false := by
            simp [hq1]
            exact fun hc => hne hc.symm
          rw [saveReplace_cons_true hq]
          rw [@findById_cons_false (q.1, r2) (saveReplace t id r2) j hqj]
          rw [findById_cons_false hqj]
          exact ih
      | false =>
          rw [saveReplace_cons_false hq]
          cases hj : (q.1 == j) with
          | true =>
              rw [findById_cons_true hj, findById_cons_true hj]
          | false =>
              rw [findById_cons_false hj, findById_cons_false hj]
              exact ih

theorem findOneActive_mem {s : AttStore} {e : Nat} {p : Nat × AttendanceRec}
    (h : findOneActive s e = some p) :
    p ∈ s ∧ p.2.isActive = true ∧ p.2.employee = e := by
  unfold findOneActive at h
  have hps := List.find?_some h
  simp only [Bool.and_eq_true, beq_iff_eq] at hps
  exact ⟨List.mem_of_find?_eq_some h, hps.1, hps.2⟩

theorem activeUnique_saveReplace {s : AttStore} {id : Nat} {r r2 : AttendanceRec}
    (hWF : WFAtt s) (hlk : findById s id = some r)
    (hemp : r2.employee = r.employee)
    (hact : r2.isActive = true → r.isActive = true)
    (h : activeUnique s) : activeUnique (saveReplace s id r2) := by
  unfold activeUnique saveReplace
  rw [List.pairwise_map]
  refine List.Pairwise.imp_of_mem ?_ h
  intro a b ha hb hab hcon
  apply hab
  by_cases hA : (a.1 == id) = true
  · have ha2 : a.2 = r := record_eq_of_findById hWF hlk a ha (by simpa using hA)
    rw [if_pos hA] at hcon
    by_cases hB : (b.1 == id) = true
    · have hb2 : b.2 = r := record_eq_of_findById hWF hlk b hb (by simpa using hB)
      rw [if_pos hB] at hcon
      exact ⟨ha2 ▸ hact hcon.1, hb2 ▸ hact hcon.2.1, by rw [ha2, hb2]⟩
    · rw [if_neg hB] at hcon
      exact ⟨ha2 ▸ hact hcon.1, hcon.2.1, by rw [ha2, ← hemp]; exact hcon.2.2⟩
  · rw [if_neg hA] at hcon
    by_cases hB : (b.1 == id) = true
    · have hb2 : b.2 = r := record_eq_of_findById hWF hlk b hb (by simpa using hB)
      rw [if_pos hB] at hcon
      exact ⟨hcon.1, hb2 ▸ hact hcon.2.1, by rw [hb2, ← hemp]; exact hcon.2.2⟩
    · rw [if_neg hB] at hcon
      exact hcon

theorem activeUnique_cons {s : AttStore} {fid : Nat} {r : AttendanceRec}
    (hnone : findOneActive s r.employee = none)
    (h : activeUnique s) : activeUnique ((fid, r) :: s) := by
  unfold activeUnique at h ⊢
  refine List.pairwise_cons.mpr ⟨?_, h⟩
  intro q hq hcon
  apply List.find?_eq_none.mp hnone q hq
  simp only [Bool.and_eq_true, beq_iff_eq]
  exact ⟨hcon.2.1, hcon.2.2.symm⟩

end StoreLemmas

section VisitSaveLemmas

theorem visitSave_cancelled (v : Visit) (h : v.status = VStatus.cancelled) :
    (visitSave v).status = VStatus.cancelled ∧ (visitSave v).comment = v.comment := by
  unfold visitSave visitHookA visitHookB
  cases hin : v.clockIn <;> cases hout : v.clockOut <;> simp [hin, hout, h]

end VisitSaveLemmas

/-- Example record for the C7 work-hours scenario: clockIn 09:00, clockOut
17:30 (milliseconds of day). -/
def exAttC7 : AttendanceRec :=
  { employee := 1, workingFrom := WorkingFrom.home, office := none,
    clockIn := some 32400000, clockOut := some 63000000,
    duration := none, isActive := false }

/-- Example visit used in witnesses: a 125-minute completed stay. -/
def exVisitC6 : Visit :=
  { visitor := 1, employee := 2, expectedClockIn := 0,
    clockIn := some 0, clockOut := some 7500000, duration := none,
    reason := "meeting", comment := none, status := VStatus.inProgress,
    office := none }

/-- C6: for every record (Visit or Attendance) with both clock times set
(and, per the spec's assumption, clockOut ≥ clockIn), the stored duration
string is `"{hours}h {minutes}m"` when the floored hour component of the
delta is positive, else `"{minutes}m"`, with hours and minutes the integer
floors of the respective components; a 125-minute delta gives "2h 5m" and a
45-minute delta gives "45m". -/
theorem C6_duration_format :
    (∀ delta : Nat, formatDuration delta = claimDuration delta) ∧
    (∀ (v : Visit) (a b : Nat), a ≤ b → v.clockIn = some a → v.clockOut = some b →
      (visitHookA v).duration = some (claimDuration (b - a))) ∧
    (∀ (r : AttendanceRec) (a b : Nat), a ≤ b → r.clockIn = some a → r.clockOut = some b →
      (attDurationHook r).duration = some (claimDuration (b - a))) ∧
    claimDuration (125 * 60000) = "2h 5m" ∧
    claimDuration (45 * 60000) = "45m" := by
  refine ⟨formatDuration_eq_claimDuration, ?_, ?_, by rfl, by rfl⟩
  · intro v a b _ hin hout
    unfold visitHookA
    rw [hin, hout]
    simp [formatDuration_eq_claimDuration]
  · intro r a b _ hin hout
    unfold attDurationHook
    rw [hin, hout]
    simp [formatDuration_eq_claimDuration]

/-- Witness for C6 at a concrete 125-minute visit. -/
theorem C6_witness :
    (0 : Nat) ≤ 7500000 ∧ (visitHookA exVisitC6).duration = some (claimDuration (7500000 - 0)) :=
  ⟨by decide, C6_duration_format.2.1 exVisitC6 0 7500000 (by decide) rfl rfl⟩

/-- C7: the `workHours` virtual is the millisecond clock delta divided by
3,600,000 rounded to 2 decimal places, `0` when either clock time is absent;
`isOvertime` holds exactly when workHours > 8; 09:00→17:30 gives 8.5 hours
and overtime. -/
theorem C7_workHours :
    (∀ r : AttendanceRec, r.clockIn = none ∨ r.clockOut = none → attWorkHours r = 0) ∧
    (∀ (r : AttendanceRec) (a b : Nat), r.clockIn = some a → r.clockOut = some b →
      attWorkHours r = roundTo2 (((b : ℚ) - (a : ℚ)) / 3600000)) ∧
    (∀ r : AttendanceRec, attIsOvertime r ↔ attWorkHours r > 8) ∧
    (attWorkHours exAttC7 = 8.5 ∧ attIsOvertime exAttC7) := by
  refine ⟨?_, ?_, fun r => Iff.rfl, ?_, ?_⟩
  · intro r h
    unfold attWorkHours
    rcases h with h | h
    · rw [h]
    · cases hin : r.clockIn <;> rw [h]
  · intro r a b hin hout
    unfold attWorkHours roundTo2
    rw [hin, hout]
  · show attWorkHours exAttC7 = 8.5
    unfold attWorkHours exAttC7
    norm_num [round_eq]
  · show attWorkHours exAttC7 > 8
    unfold attWorkHours exAttC7
    norm_num [round_eq]

/-- Witness for C7 at a concrete record with both clock times. -/
theorem C7_witness :
    exAttC7.clockIn = some 32400000 ∧ exAttC7.clockOut = some 63000000 ∧
      attWorkHours exAttC7 = roundTo2 ((((63000000 : Nat) : ℚ) - ((32400000 : Nat) : ℚ)) / 3600000) :=
  ⟨rfl, rfl, C7_workHours.2.1 exAttC7 32400000 63000000 rfl rfl⟩

/-- C8: the attendance summary returns averageWorkHours = 0 when there are no
completed sessions, and work-pattern percentages 0 when there are no sessions
at all; the aggregation is total (no NaN / division-by-zero outcome is
representable: the code's `|| 0` guard is the zero-total branch). -/
theorem C8_summary_safety :
    ∀ recs : List AttendanceRec,
      ((summaryOf recs).completedSessions = 0 → (summaryOf recs).averageWorkHours = 0) ∧
      ((summaryOf recs).totalSessions = 0 →
        (summaryOf recs).patternOffice = 0 ∧ (summaryOf recs).patternHome = 0) := by
  intro recs
  constructor
  · intro h
    simp only [summaryOf] at h ⊢
    rw [if_neg (by omega)]
  · intro h
    simp only [summaryOf] at h ⊢
    rw [if_pos h, if_pos h]
    exact ⟨rfl, rfl⟩

/-- One active, never-completed session, for the C8 witness. -/
def wRecC8 : AttendanceRec :=
  { employee := 3, workingFrom := WorkingFrom.office, office := some 9,
    clockIn := some 1000, clockOut := none, duration := none, isActive := true }

/-- Witness for C8: the empty range and a range with one active session. -/
theorem C8_witness :
    (summaryOf []).averageWorkHours = 0 ∧ (summaryOf []).patternOffice = 0 ∧
      (summaryOf []).patternHome = 0 ∧ (summaryOf [wRecC8]).averageWorkHours = 0 :=
  ⟨(C8_summary_safety []).1 rfl, ((C8_summary_safety []).2 rfl).1,
    ((C8_summary_safety []).2 rfl).2, (C8_summary_safety [wRecC8]).1 rfl⟩

/-- C9: `cancel` fails with InvalidState on a completed visit, and otherwise
transitions to `cancelled`; a supplied reason is appended to the comment, so
the prior comment text is always a preserved prefix of the new comment. -/
theorem C9_cancelVisit :
    ∀ (v : Visit) (reason : Option String),
      (v.status = VStatus.completed →
        cancelVisit v reason = Except.error VErr.invalidStateCancel) ∧
      (v.status ≠ VStatus.completed →
        ∃ v2, cancelVisit v reason = Except.ok v2 ∧ v2.status = VStatus.cancelled ∧
          ∃ t, v2.comment.getD "" = v.comment.getD "" ++ t) := by
  intro v reason
  constructor
  · intro h
    unfold cancelVisit
    rw [if_pos h]
  · intro h
    unfold cancelVisit
    rw [if_neg h]
    cases reason with
    | none =>
        refine ⟨_, rfl, (visitSave_cancelled _ rfl).1, "", ?_⟩
        rw [(visitSave_cancelled _ rfl).2]
        exact (String.append_empty _).symm
    | some r =>
        dsimp only
        by_cases hr : r = ""
        · rw [if_neg (by simp [hr])]
          refine ⟨_, rfl, (visitSave_cancelled _ rfl).1, "", ?_⟩
          rw [(visitSave_cancelled _ rfl).2]
          exact (String.append_empty _).symm
        · rw [if_pos hr]
          cases hc : v.comment with
          | none =>
              refine ⟨_, rfl, (visitSave_cancelled _ rfl).1,
                "Cancellation reason: " ++ r, ?_⟩
              rw [(visitSave_cancelled _ rfl).2]
              exact (String.empty_append _).symm
          | some c =>
              dsimp only
              by_cases hcb : c = ""
              · rw [if_neg (by simp [hcb])]
                refine ⟨_, rfl, (visitSave_cancelled _ rfl).1,
                  "Cancellation reason: " ++ r, ?_⟩
                rw [(visitSave_cancelled _ rfl).2, hcb]
                exact (String.empty_append _).symm
              · rw [if_pos hcb]
                refine ⟨_, rfl, (visitSave_cancelled _ rfl).1,
                  "\nCancellation reason: " ++ r, ?_⟩
                rw [(visitSave_cancelled _ rfl).2]
                exact String.append_assoc c _ r

/-- Pending visit with a prior comment, for the C9 witness. -/
def exVisitC9 : Visit :=
  { visitor := 4, employee := 5, expectedClockIn := 100,
    clockIn := none, clockOut := none, duration := none,
    reason := "interview", comment := some "arrive early",
    status := VStatus.pending, office := none }

/-- Witness for C9 at a concrete pending visit with a cancellation reason. -/
theorem C9_witness :
    exVisitC9.status ≠ VStatus.completed ∧
      (∃ v2, cancelVisit exVisitC9 (some "sick") = Except.ok v2 ∧
        v2.status = VStatus.cancelled ∧
        ∃ t, v2.comment.getD "" = exVisitC9.comment.getD "" ++ t) :=
  ⟨by decide, (C9_cancelVisit exVisitC9 (some "sick")).2 (by decide)⟩

/-- C5: visit `clockOut` rejects a visit with no `clockIn` (Precondition) and
one already clocked out (AlreadyDone); otherwise it stamps `clockOut = now`,
stores the duration, and moves the status to `completed` exactly when the
prior status was `in_progress` (otherwise the status is unchanged). -/
theorem C5_clockOutVisitor :
    ∀ (v : Visit) (now : Nat),
      (v.clockIn = none → clockOutVisitor v now = Except.error VErr.notClockedIn) ∧
      (v.clockIn ≠ none → v.clockOut.isSome = true →
        clockOutVisitor v now = Except.error VErr.alreadyClockedOut) ∧
      (∀ tin, v.clockIn = some tin → v.clockOut = none →
        ∃ v2, clockOutVisitor v now = Except.ok v2 ∧ v2.clockOut = some now ∧
          v2.duration = some (formatDuration (now - tin)) ∧
          (v.status = VStatus.inProgress → v2.status = VStatus.completed) ∧
          (v.status ≠ VStatus.inProgress → v2.status = v.status)) := by
  intro v now
  refine ⟨?_, ?_, ?_⟩
  · intro h
    unfold clockOutVisitor
    rw [if_pos h]
  · intro h1 h2
    unfold clockOutVisitor
    rw [if_neg h1, if_pos h2]
  · intro tin hin hout
    unfold clockOutVisitor
    rw [if_neg (by simp [hin]), if_neg (by simp [hout])]
    refine ⟨_, rfl, ?_, ?_, ?_, ?_⟩
    · unfold visitSave visitHookA visitHookB
      simp [hin]
    · unfold visitSave visitHookA visitHookB
      simp [hin]
    · intro hs
      unfold visitSave visitHookA visitHookB
      simp [hin, hs]
    · intro hs
      unfold visitSave visitHookA visitHookB
      simp [hin, hs]

/-- In-progress visit for the C5 witness. -/
def exVisitC5 : Visit :=
  { visitor := 6, employee := 7, expectedClockIn := 0,
    clockIn := some 1000, clockOut := none, duration := none,
    reason := "demo", comment := none, status := VStatus.inProgress,
    office := none }

/-- Witness for C5: clocking out a concrete in-progress visit. -/
theorem C5_witness :
    exVisitC5.clockIn = some 1000 ∧ exVisitC5.clockOut = none ∧
      (∃ v2, clockOutVisitor exVisitC5 61000 = Except.ok v2 ∧ v2.clockOut = some 61000 ∧
        v2.duration = some (formatDuration (61000 - 1000)) ∧
        (exVisitC5.status = VStatus.inProgress → v2.status = VStatus.completed) ∧
        (exVisitC5.status ≠ VStatus.inProgress → v2.status = exVisitC5.status)) :=
  ⟨rfl, rfl, (C5_clockOutVisitor exVisitC5 61000).2.2 1000 rfl rfl⟩

instance (a b : VStatus) : Decidable (codeAllowed a b) := by
  unfold codeAllowed; infer_instance

theorem cancelVisit_status {v : Visit} {reason : Option String} {v2 : Visit}
    (hok : cancelVisit v reason = Except.ok v2) : v2.status = VStatus.cancelled := by
  unfold cancelVisit at hok
  by_cases hs : v.status = VStatus.completed
  · rw [if_pos hs] at hok
    cases hok
  · rw [if_neg hs] at hok
    cases reason with
    | none =>
        rw [← Except.ok.inj hok]
        exact (visitSave_cancelled _ rfl).1
    | some r =>
        dsimp only at hok
        by_cases hr : r = ""
        · rw [if_neg (by simp [hr])] at hok
          rw [← Except.ok.inj hok]
          exact (visitSave_cancelled _ rfl).1
        · rw [if_pos hr] at hok
          cases hcm : v.comment with
          | none =>
              rw [hcm] at hok
              dsimp only at hok
              rw [← Except.ok.inj hok]
              exact (visitSave_cancelled _ rfl).1
          | some c =>
              rw [hcm] at hok
              dsimp only at hok
              by_cases hcb : c = ""
              · rw [if_neg (by simp [hcb])] at hok
                rw [← Except.ok.inj hok]
                exact (visitSave_cancelled _ rfl).1
              · rw [if_pos hcb] at hok
                rw [← Except.ok.inj hok]
                exact (visitSave_cancelled _ rfl).1

/-- C2 (amended): for visits whose clock fields are consistent with their
status, the dedicated operations accept/cancel/clockIn/clockOut perform only
the spec's transitions plus in_progress → cancelled (`codeAllowed`), or
leave the status unchanged; `accept` on a non-pending visit fails with
InvalidState and changes nothing.  (The generic `update` escape hatch is not
constrained by the transition graph; the status enumeration itself is
enforced by the `VStatus` type.) -/
theorem C2_transitions :
    (∀ v : Visit, statusClockConsistent v →
      (∀ v2, acceptVisit v = Except.ok v2 →
        v2.status = v.status ∨ codeAllowed v.status v2.status) ∧
      (∀ reason v2, cancelVisit v reason = Except.ok v2 →
        v2.status = v.status ∨ codeAllowed v.status v2.status) ∧
      (∀ now v2, clockInVisitor v now = Except.ok v2 →
        v2.status = v.status ∨ codeAllowed v.status v2.status) ∧
      (∀ now v2, clockOutVisitor v now = Except.ok v2 →
        v2.status = v.status ∨ codeAllowed v.status v2.status)) ∧
    (∀ v : Visit, v.status ≠ VStatus.pending →
      acceptVisit v = Except.error VErr.invalidStateAccept) := by
  constructor
  · intro v hcons
    refine ⟨?_, ?_, ?_, ?_⟩
    · intro v2 hok
      unfold acceptVisit at hok
      by_cases hs : v.status = VStatus.pending
      · rw [if_neg (not_not_intro hs)] at hok
        have hcons' : v.clockIn = none ∧ v.clockOut = none := by
          unfold statusClockConsistent at hcons
          rw [hs] at hcons
          exact hcons
        have hstat : v2.status = VStatus.accepted := by
          rw [← Except.ok.inj hok]
          unfold visitSave visitHookA visitHookB
          simp [hcons'.1]
        rw [hstat, hs]
        exact Or.inr (by decide)
      · rw [if_pos hs] at hok
        cases hok
    · intro reason v2 hok
      have hstat := cancelVisit_status hok
      have hs : v.status ≠ VStatus.completed := by
        intro hc
        unfold cancelVisit at hok
        rw [if_pos hc] at hok
        cases hok
      rw [hstat]
      cases hv : v.status with
      | pending => exact Or.inr (by decide)
      | accepted => exact Or.inr (by decide)
      | inProgress => exact Or.inr (by decide)
      | cancelled => exact Or.inl rfl
      | completed => exact absurd hv hs
    · intro now v2 hok
      unfold clockInVisitor at hok
      by_cases hs : v.status = VStatus.accepted
      · rw [if_neg (not_not_intro hs)] at hok
        by_cases hin : v.clockIn.isSome
        · rw [if_pos hin] at hok
          cases hok
        · rw [if_neg hin] at hok
          have hout : v.clockOut = none := by
            unfold statusClockConsistent at hcons
            rw [hs] at hcons
            exact hcons.2
          have hstat : v2.status = VStatus.inProgress := by
            rw [← Except.ok.inj hok]
            unfold visitSave visitHookA visitHookB
            simp [hout]
          rw [hstat, hs]
          exact Or.inr (by decide)
      · rw [if_pos hs] at hok
        cases hok
    · intro now v2 hok
      unfold clockOutVisitor at hok
      by_cases hin : v.clockIn = none
      · rw [if_pos hin] at hok
        cases hok
      · rw [if_neg hin] at hok
        by_cases hout : v.clockOut.isSome
        · rw [if_pos hout] at hok
          cases hok
        · rw [if_neg hout] at hok
          obtain ⟨tin, htin⟩ := Option.ne_none_iff_exists'.mp hin
          have houtn : v.clockOut = none := Option.not_isSome_iff_eq_none.mp hout
          by_cases hstv : v.status = VStatus.inProgress
          · have hstat : v2.status = VStatus.completed := by
              rw [← Except.ok.inj hok]
              unfold visitSave visitHookA visitHookB
              simp [htin, houtn, hstv]
            rw [hstat, hstv]
            exact Or.inr (by decide)
          · have hstat : v2.status = v.status := by
              rw [← Except.ok.inj hok]
              unfold visitSave visitHookA visitHookB
              simp [htin, houtn, hstv]
            exact Or.inl hstat
  · intro v hs
    unfold acceptVisit
    rw [if_pos hs]

/-- An in-progress visit, for the C2 counterexample. -/
def cexVisitC2 : Visit :=
  { visitor := 1, employee := 2, expectedClockIn := 0, clockIn := some 10,
    clockOut := none, duration := none, reason := "tour", comment := none,
    status := VStatus.inProgress, office := none }

/-- C2 counterexample: cancelling an in-progress visit succeeds and performs
the transition in_progress → cancelled, which is not among the claim's legal
transitions. -/
theorem C2_counterexample :
    cexVisitC2.status = VStatus.inProgress ∧
    cancelVisit cexVisitC2 none = Except.ok { cexVisitC2 with status := VStatus.cancelled } ∧
    ¬ specAllowed VStatus.inProgress VStatus.cancelled ∧
    VStatus.cancelled ≠ VStatus.inProgress := by
  refine ⟨rfl, rfl, by decide, by decide⟩

/-- A freshly created (pending, unclocked) visit for the C2 witness. -/
def exVisitC2w : Visit :=
  { visitor := 8, employee := 9, expectedClockIn := 50,
    clockIn := none, clockOut := none, duration := none,
    reason := "audit", comment := none, status := VStatus.pending,
    office := none }

/-- Witness for C2 at concrete visits: an accepted pending visit takes a legal
transition, and accepting an in-progress visit fails with InvalidState. -/
theorem C2_witness :
    ({ exVisitC2w with status := VStatus.accepted }.status = exVisitC2w.status ∨
      codeAllowed exVisitC2w.status { exVisitC2w with status := VStatus.accepted }.status) ∧
    acceptVisit cexVisitC2 = Except.error VErr.invalidStateAccept :=
  ⟨(C2_transitions.1 exVisitC2w ⟨rfl, rfl⟩).1 _ rfl,
    C2_transitions.2 cexVisitC2 (by decide)⟩

theorem hasOtherActive_eq_false {s : AttStore} {id e : Nat}
    (h : findOneActive s e = none) : hasOtherActive s id e = false := by
  unfold hasOtherActive
  rw [List.any_eq_false]
  intro p hp hcon
  have h1 := ((Bool.and_eq_true _ _).mp hcon).1
  have h2 := ((Bool.and_eq_true _ _).mp hcon).2
  have h3 := ((Bool.and_eq_true _ _).mp h1).2
  apply List.find?_eq_none.mp h p hp
  rw [h3, h2]
  rfl

/-- C4: `clockIn` (createAttendance) fails when working from office with the
office omitted (HTTP 400, the spec's Precondition) or with a nonexistent
office (HTTP 404, NotFound); fails with Conflict when the employee already
has an active session; and on success creates a record with clockIn = now,
isActive = true, and clockOut unset. -/
theorem C4_createAttendance :
    ∀ (env : AttEnv) (s : AttStore) (e o now fid : Nat),
      (e ∈ env.users →
        createAttendance env s e WorkingFrom.office none now fid =
            Except.error AttErr.officeRequired ∧
          AttErr.status AttErr.officeRequired = 400) ∧
      (e ∈ env.users → o ∉ env.offices →
        createAttendance env s e WorkingFrom.office (some o) now fid =
            Except.error AttErr.officeNotFound ∧
          AttErr.status AttErr.officeNotFound = 404) ∧
      (∀ wf oo, e ∈ env.users → checkOffice env wf oo = none →
        (findOneActive s e).isSome = true →
        createAttendance env s e wf oo now fid = Except.error AttErr.activeConflict) ∧
      (∀ wf oo, e ∈ env.users → checkOffice env wf oo = none →
        findOneActive s e = none →
        ∃ r2 s2, createAttendance env s e wf oo now fid = Except.ok (r2, s2) ∧
          r2.clockIn = some now ∧ r2.isActive = true ∧ r2.clockOut = none) := by
  intro env s e o now fid
  refine ⟨?_, ?_, ?_, ?_⟩
  · intro h
    refine ⟨?_, rfl⟩
    unfold createAttendance
    rw [if_pos h]
    simp [checkOffice]
  · intro h ho
    refine ⟨?_, rfl⟩
    unfold createAttendance
    rw [if_pos h]
    simp [checkOffice, ho]
  · intro wf oo h hco hact
    unfold createAttendance
    rw [if_pos h, hco]
    dsimp only
    rw [if_pos hact]
  · intro wf oo h hco hnone
    unfold createAttendance
    rw [if_pos h, hco]
    dsimp only
    rw [if_neg (by simp [hnone])]
    unfold attSave
    dsimp only [attDurationHook]
    rw [if_neg ?hofc]
    case hofc =>
      rintro ⟨hwf, hof⟩
      rw [hwf] at hof
      simp at hof
      rw [hwf, hof] at hco
      simp [checkOffice] at hco
    rw [if_neg ?hcon]
    case hcon =>
      rintro ⟨-, -, hoa⟩
      rw [hasOtherActive_eq_false hnone] at hoa
      cases hoa
    exact ⟨_, _, rfl, rfl, rfl, rfl⟩

/-- Environment for the C4 witness: user 1 and office 5 exist. -/
def wEnvC4 : AttEnv := { users := [1], offices := [5] }

/-- Witness for C4: a successful office clock-in on an empty store. -/
theorem C4_witness :
    (1 : Nat) ∈ wEnvC4.users ∧ checkOffice wEnvC4 WorkingFrom.office (some 5) = none ∧
      findOneActive ([] : AttStore) 1 = none ∧
      (∃ r2 s2,
        createAttendance wEnvC4 [] 1 WorkingFrom.office (some 5) 777 1 = Except.ok (r2, s2) ∧
          r2.clockIn = some 777 ∧ r2.isActive = true ∧ r2.clockOut = none) :=
  ⟨by decide, rfl, rfl,
    (C4_createAttendance wEnvC4 [] 1 5 777 1).2.2.2 WorkingFrom.office (some 5)
      (by decide) rfl rfl⟩

section ClockOutShape

theorem clockOutById_ok_shape {s : AttStore} {id now : Nat} {r2 : AttendanceRec}
    {s2 : AttStore} (hok : clockOutById s id now = Except.ok (r2, s2)) :
    ∃ r, findById s id = some r ∧ r.isActive = true ∧ r.clockOut = none ∧
      s2 = saveReplace s id r2 ∧
      ((r.clockIn = none ∧ r2 = { r with clockOut := some now }) ∨
       (∃ tin, r.clockIn = some tin ∧
         r2 = { r with clockOut := some now,
                       duration := some (formatDuration (now - tin)),
                       isActive := false })) := by
  unfold clockOutById at hok
  cases hfind : findById s id with
  | none =>
      rw [hfind] at hok
      cases hok
  | some r =>
      rw [hfind] at hok
      dsimp only at hok
      by_cases hact : r.isActive = false
      · rw [if_pos hact] at hok
        cases hok
      · rw [if_neg hact] at hok
        have hactT : r.isActive = true := by
          cases hb : r.isActive
          · exact absurd hb hact
          · rfl
        by_cases hout : r.clockOut.isSome = true
        · rw [if_pos hout] at hok
          cases hok
        · rw [if_neg hout] at hok
          have houtN : r.clockOut = none := Option.not_isSome_iff_eq_none.mp hout
          unfold attSave at hok
          cases hin : r.clockIn with
          | none =>
              simp only [attDurationHook, hin] at hok
              by_cases hc1 : r.workingFrom = WorkingFrom.office ∧ r.office = none
              · rw [if_pos hc1] at hok
                cases hok
              · rw [if_neg hc1] at hok
                rw [if_neg (by simp)] at hok
                dsimp only at hok
                injection (Except.ok.inj hok) with h1 h2
                subst h1
                subst h2
                exact ⟨r, rfl, hactT, houtN, rfl, Or.inl ⟨hin, by rw [hin]⟩⟩
          | some tin =>
              simp only [attDurationHook, hin] at hok
              by_cases hc1 : r.workingFrom = WorkingFrom.office ∧ r.office = none
              · rw [if_pos hc1] at hok
                cases hok
              · rw [if_neg hc1] at hok
                rw [if_neg (by simp)] at hok
                dsimp only at hok
                injection (Except.ok.inj hok) with h1 h2
                subst h1
                subst h2
                exact ⟨r, rfl, hactT, houtN, rfl, Or.inr ⟨tin, hin, by rw [hin]⟩⟩

theorem clockOutByEmployee_ok_shape {s : AttStore} {e now : Nat} {r2 : AttendanceRec}
    {s2 : AttStore} (hok : clockOutByEmployee s e now = Except.ok (r2, s2)) :
    ∃ id r, findOneActive s e = some (id, r) ∧
      s2 = saveReplace s id r2 ∧
      ((r.clockIn = none ∧ r2 = { r with clockOut := some now }) ∨
       (∃ tin, r.clockIn = some tin ∧
         r2 = { r with clockOut := some now,
                       duration := some (formatDuration (now - tin)),
                       isActive := false })) := by
  unfold clockOutByEmployee at hok
  cases hfa : findOneActive s e with
  | none =>
      rw [hfa] at hok
      cases hok
  | some p =>
      obtain ⟨id, r⟩ := p
      rw [hfa] at hok
      dsimp only at hok
      unfold attSave at hok
      cases hin : r.clockIn with
      | none =>
          simp only [attDurationHook, hin] at hok
          by_cases hc1 : r.workingFrom = WorkingFrom.office ∧ r.office = none
          · rw [if_pos hc1] at hok
            cases hok
          · rw [if_neg hc1] at hok
            rw [if_neg (by simp)] at hok
            dsimp only at hok
            injection (Except.ok.inj hok) with h1 h2
            subst h1
            subst h2
            exact ⟨id, r, rfl, rfl, Or.inl ⟨hin, by rw [hin]⟩⟩
      | some tin =>
          simp only [attDurationHook, hin] at hok
          by_cases hc1 : r.workingFrom = WorkingFrom.office ∧ r.office = none
          · rw [if_pos hc1] at hok
            cases hok
          · rw [if_neg hc1] at hok
            rw [if_neg (by simp)] at hok
            dsimp only at hok
            injection (Except.ok.inj hok) with h1 h2
            subst h1
            subst h2
            exact ⟨id, r, rfl, rfl, Or.inr ⟨tin, hin, by rw [hin]⟩⟩

end ClockOutShape

/-- C10 (implicit frame property): a successful attendance clock-out — by
record id or by employee — only modifies the clockOut, duration, and isActive
fields of the target record; its employee, workingFrom, office, and clockIn
fields are unchanged, and every other record in the store is untouched. -/
theorem C10_clockOut_frame :
    (∀ s id now r2 s2, clockOutById s id now = Except.ok (r2, s2) →
      ∃ r, findById s id = some r ∧
        r2.employee = r.employee ∧ r2.workingFrom = r.workingFrom ∧
        r2.office = r.office ∧ r2.clockIn = r.clockIn ∧
        findById s2 id = some r2 ∧
        ∀ j, j ≠ id → findById s2 j = findById s j) ∧
    (∀ s e now r2 s2, clockOutByEmployee s e now = Except.ok (r2, s2) →
      ∃ id r, findOneActive s e = some (id, r) ∧
        r2.employee = r.employee ∧ r2.workingFrom = r.workingFrom ∧
        r2.office = r.office ∧ r2.clockIn = r.clockIn ∧
        s2 = saveReplace s id r2 ∧
        ∀ j, j ≠ id → findById s2 j = findById s j) := by
  constructor
  · intro s id now r2 s2 hok
    obtain ⟨r, hfind, -, -, hs2, hcase⟩ := clockOutById_ok_shape hok
    subst hs2
    rcases hcase with ⟨hin, hr2⟩ | ⟨tin, hin, hr2⟩ <;> subst hr2 <;>
      exact ⟨r, hfind, rfl, rfl, rfl, rfl, findById_saveReplace_self hfind,
        fun j hj => findById_saveReplace_ne hj⟩
  · intro s e now r2 s2 hok
    obtain ⟨id, r, hfa, hs2, hcase⟩ := clockOutByEmployee_ok_shape hok
    subst hs2
    rcases hcase with ⟨hin, hr2⟩ | ⟨tin, hin, hr2⟩ <;> subst hr2 <;>
      exact ⟨id, r, hfa, rfl, rfl, rfl, rfl, rfl,
        fun j hj => findById_saveReplace_ne hj⟩

/-- Active home session (for C10/C3 witnesses). -/
def wRecC10 : AttendanceRec :=
  { employee := 21, workingFrom := WorkingFrom.home, office := none,
    clockIn := some 100, clockOut := none, duration := none, isActive := true }

/-- The record after clocking out `wRecC10` at time 500. -/
def wRecC10out : AttendanceRec :=
  { wRecC10 with clockOut := some 500,
                 duration := some (formatDuration (500 - 100)),
                 isActive := false }

/-- Store holding the single active session `wRecC10`. -/
def wStoreC10 : AttStore := [(3, wRecC10)]

/-- Store after the clock-out. -/
def wStoreC10out : AttStore := [(3, wRecC10out)]

/-- Witness for C10: clocking out the concrete store's record 3. -/
theorem C10_witness :
    ∃ r, findById wStoreC10 3 = some r ∧
      wRecC10out.employee = r.employee ∧ wRecC10out.workingFrom = r.workingFrom ∧
      wRecC10out.office = r.office ∧ wRecC10out.clockIn = r.clockIn ∧
      findById wStoreC10out 3 = some wRecC10out ∧
      ∀ j, j ≠ 3 → findById wStoreC10out j = findById wStoreC10 j :=
  C10_clockOut_frame.1 wStoreC10 3 500 wRecC10out wStoreC10out rfl

theorem findOneActive_replace_none {s : AttStore} {e id : Nat} {r r2 : AttendanceRec}
    (hau : activeUnique s)
    (hfa : findOneActive s e = some (id, r))
    (hinact : r2.isActive = false) :
    findOneActive (saveReplace s id r2) e = none := by
  unfold activeUnique at hau
  unfold findOneActive saveReplace
  rw [List.find?_eq_none]
  intro p hp hcon
  obtain ⟨q, hq, hpq⟩ := List.mem_map.mp hp
  by_cases hqid : (q.1 == id) = true
  · rw [if_pos hqid] at hpq
    rw [← hpq] at hcon
    have hr2t := ((Bool.and_eq_true _ _).mp hcon).1
    simp [hinact] at hr2t
  · rw [if_neg hqid] at hpq
    rw [← hpq] at hcon
    have hqact := ((Bool.and_eq_true _ _).mp hcon).1
    have hqemp : q.2.employee = e := by
      have := ((Bool.and_eq_true _ _).mp hcon).2
      simpa using this
    have hmem := findOneActive_mem hfa
    have hne : q ≠ (id, r) := by
      intro hqe
      rw [hqe] at hqid
      simp at hqid
    have hsymm : Symmetric (fun p q : Nat × AttendanceRec =>
        ¬(p.2.isActive = true ∧ q.2.isActive = true ∧ p.2.employee = q.2.employee)) := by
      intro x y hxy hcc
      exact hxy ⟨hcc.2.1, hcc.1, hcc.2.2.symm⟩
    exact (List.Pairwise.forall hsymm hau) hq hmem.1 hne
      ⟨hqact, hmem.2.1, by rw [hqemp, hmem.2.2]⟩

/-- C3 (amended): clockOut by id fails NotFound (404) only when the record is
absent — when the record exists but is inactive it fails with an
invalid-state error (HTTP 400), not NotFound; clockOut by employee fails
NotFound (404) when no active session exists.  A successful clockOut on a
record whose clockIn is set stamps clockOut = now, populates the duration,
and clears isActive; because of that, under the single-active invariant a
second clockOut by employee then fails NotFound. -/
theorem C3_clockOut :
    (∀ s id now, findById s id = none →
      clockOutById s id now = Except.error AttErr.recordNotFound ∧
        AttErr.status AttErr.recordNotFound = 404) ∧
    (∀ s id now r, findById s id = some r → r.isActive = false →
      clockOutById s id now = Except.error AttErr.sessionNotActive ∧
        AttErr.status AttErr.sessionNotActive = 400) ∧
    (∀ s id now r tin, findById s id = some r → r.isActive = true →
      r.clockOut = none → r.clockIn = some tin →
      ¬(r.workingFrom = WorkingFrom.office ∧ r.office = none) →
      ∃ r2 s2, clockOutById s id now = Except.ok (r2, s2) ∧
        r2.clockOut = some now ∧
        r2.duration = some (formatDuration (now - tin)) ∧
        r2.isActive = false) ∧
    (∀ s e now, findOneActive s e = none →
      clockOutByEmployee s e now = Except.error AttErr.noActiveSession ∧
        AttErr.status AttErr.noActiveSession = 404) ∧
    (∀ s e now now2 id r tin r2 s2, WFAtt s → activeUnique s →
      findOneActive s e = some (id, r) → r.clockIn = some tin →
      clockOutByEmployee s e now = Except.ok (r2, s2) →
      clockOutByEmployee s2 e now2 = Except.error AttErr.noActiveSession) := by
  refine ⟨?_, ?_, ?_, ?_, ?_⟩
  · intro s id now h
    refine ⟨?_, rfl⟩
    unfold clockOutById
    rw [h]
  · intro s id now r hfind hact
    refine ⟨?_, rfl⟩
    unfold clockOutById
    rw [hfind]
    dsimp only
    rw [if_pos hact]
  · intro s id now r tin hfind hact hout htin hofc
    unfold clockOutById
    rw [hfind]
    dsimp only
    rw [if_neg (by simp [hact]), if_neg (by simp [hout])]
    unfold attSave
    simp only [attDurationHook, htin]
    rw [if_neg hofc]
    rw [if_neg (by simp)]
    exact ⟨_, _, rfl, rfl, rfl, rfl⟩
  · intro s e now h
    refine ⟨?_, rfl⟩
    unfold clockOutByEmployee
    rw [h]
  · intro s e now now2 id r tin r2 s2 hWF hau hfa htin hok
    obtain ⟨id2, r3, hfa2, hs2, hcase⟩ := clockOutByEmployee_ok_shape hok
    rw [hfa] at hfa2
    injection hfa2 with hpair
    injection hpair with hid hr
    subst hid
    subst hr
    rcases hcase with ⟨hin, hr2⟩ | ⟨tin2, hin2, hr2⟩
    · rw [htin] at hin
      cases hin
    · subst hr2
      subst hs2
      unfold clockOutByEmployee
      rw [findOneActive_replace_none hau hfa rfl]

/-- Inactive (already closed) session, for the C3 counterexample. -/
def cexRecC3 : AttendanceRec :=
  { employee := 11, workingFrom := WorkingFrom.home, office := none,
    clockIn := some 0, clockOut := some 60000, duration := some "1m",
    isActive := false }

/-- Store holding only the inactive record under id 5. -/
def cexStoreC3 : AttStore := [(5, cexRecC3)]

/-- C3 counterexample: clockOut by id on an existing but inactive record —
"no active session matches", yet the code answers with the HTTP 400
invalid-state error ("Attendance session is not active"), not with the
NotFound (404) failure the claim requires. -/
theorem C3_counterexample :
    clockOutById cexStoreC3 5 120000 = Except.error AttErr.sessionNotActive ∧
    AttErr.sessionNotActive ≠ AttErr.recordNotFound ∧
    AttErr.status AttErr.sessionNotActive = 400 ∧
    AttErr.status AttErr.sessionNotActive ≠ 404 := by
  exact ⟨rfl, by decide, rfl, by decide⟩

/-- Witness for C3: a successful clock-out of the concrete active record. -/
theorem C3_witness :
    findById wStoreC10 3 = some wRecC10 ∧
      (∃ r2 s2, clockOutById wStoreC10 3 500 = Except.ok (r2, s2) ∧
        r2.clockOut = some 500 ∧ r2.duration = some (formatDuration (500 - 100)) ∧
        r2.isActive = false) :=
  ⟨rfl, C3_clockOut.2.2.1 wStoreC10 3 500 wRecC10 100 rfl rfl rfl rfl (by decide)⟩

/-- C1 (amended): the dedicated attendance lifecycle operations — clock-in
(createAttendance, which fails with Conflict when an active session already
exists, leaving the store untouched), clock-out by id, and clock-out by
employee — preserve the at-most-one-active-session-per-employee invariant.
The generic `updateAttendance` patch does not run the save hooks and can
violate the invariant (see the counterexample). -/
theorem C1_activeUnique :
    (∀ env s e wf o now fid r2 s2, activeUnique s →
      createAttendance env s e wf o now fid = Except.ok (r2, s2) →
      activeUnique s2) ∧
    (∀ s id now r2 s2, WFAtt s → activeUnique s →
      clockOutById s id now = Except.ok (r2, s2) → activeUnique s2) ∧
    (∀ s e now r2 s2, WFAtt s → activeUnique s →
      clockOutByEmployee s e now = Except.ok (r2, s2) → activeUnique s2) ∧
    (∀ env s e wf o now fid, e ∈ env.users → checkOffice env wf o = none →
      (findOneActive s e).isSome = true →
      createAttendance env s e wf o now fid = Except.error AttErr.activeConflict) := by
  refine ⟨?_, ?_, ?_, ?_⟩
  · intro env s e wf o now fid r2 s2 hau hok
    unfold createAttendance at hok
    by_cases hu : e ∈ env.users
    · rw [if_pos hu] at hok
      cases hco : checkOffice env wf o with
      | some err =>
          rw [hco] at hok
          cases hok
      | none =>
          rw [hco] at hok
          dsimp only at hok
          by_cases hact : (findOneActive s e).isSome = true
          · rw [if_pos hact] at hok
            cases hok
          · rw [if_neg hact] at hok
            have hnone : findOneActive s e = none :=
              Option.not_isSome_iff_eq_none.mp hact
            unfold attSave at hok
            dsimp only [attDurationHook] at hok
            by_cases hc1 : (wf = WorkingFrom.office ∧
                (if wf = WorkingFrom.office then o else none) = none)
            · rw [if_pos hc1] at hok
              cases hok
            · rw [if_neg hc1] at hok
              rw [if_neg (by simp [hasOtherActive_eq_false hnone])] at hok
              dsimp only at hok
              injection (Except.ok.inj hok) with h1 h2
              subst h1
              subst h2
              exact activeUnique_cons hnone hau
    · rw [if_neg hu] at hok
      cases hok
  · intro s id now r2 s2 hWF hau hok
    obtain ⟨r, hfind, -, -, hs2, hcase⟩ := clockOutById_ok_shape hok
    subst hs2
    rcases hcase with ⟨hin, hr2⟩ | ⟨tin, hin, hr2⟩ <;> subst hr2
    · exact activeUnique_saveReplace hWF hfind rfl (fun h => h) hau
    · exact activeUnique_saveReplace hWF hfind rfl (fun h => nomatch h) hau
  · intro s e now r2 s2 hWF hau hok
    obtain ⟨id, r, hfa, hs2, hcase⟩ := clockOutByEmployee_ok_shape hok
    subst hs2
    have hmem := findOneActive_mem hfa
    have hfind : findById s id = some r := findById_of_mem hWF hmem.1
    rcases hcase with ⟨hin, hr2⟩ | ⟨tin, hin, hr2⟩ <;> subst hr2
    · exact activeUnique_saveReplace hWF hfind rfl (fun h => h) hau
    · exact activeUnique_saveReplace hWF hfind rfl (fun h => nomatch h) hau
  · intro env s e wf o now fid hu hco hact
    unfold createAttendance
    rw [if_pos hu, hco]
    dsimp only
    rw [if_pos hact]

instance (s : AttStore) : Decidable (WFAtt s) := by
  unfold WFAtt; infer_instance

instance (s : AttStore) : Decidable (activeUnique s) := by
  unfold activeUnique; infer_instance

/-- Active session of employee 7 (id 1 in the C1 counterexample store). -/
def cexRecA : AttendanceRec :=
  { employee := 7, workingFrom := WorkingFrom.home, office := none,
    clockIn := some 0, clockOut := none, duration := none, isActive := true }

/-- Closed session of the same employee 7 (id 2). -/
def cexRecB : AttendanceRec :=
  { employee := 7, workingFrom := WorkingFrom.home, office := none,
    clockIn := some 0, clockOut := some 3600000, duration := some "1h 0m",
    isActive := false }

/-- Store with one active and one closed session for employee 7. -/
def cexStoreC1 : AttStore := [(1, cexRecA), (2, cexRecB)]

/-- `cexRecB` after the administrative patch `{ isActive: true }`. -/
def cexRecB2 : AttendanceRec := { cexRecB with isActive := true }

/-- C1 counterexample: the generic update (findByIdAndUpdate bypasses the
save hooks) re-activates the closed session, leaving employee 7 with two
simultaneously active attendance records. -/
theorem C1_counterexample :
    WFAtt cexStoreC1 ∧ activeUnique cexStoreC1 ∧
    updateAttendance cexStoreC1 2 { isActive := some true } =
      Except.ok (cexRecB2, [(1, cexRecA), (2, cexRecB2)]) ∧
    ¬ activeUnique [(1, cexRecA), (2, cexRecB2)] := by
  exact ⟨by decide, by decide, rfl, by decide⟩

/-- The record created by the witness clock-in. -/
def wRecC1 : AttendanceRec :=
  { employee := 1, workingFrom := WorkingFrom.office, office := some 5,
    clockIn := some 777, clockOut := none, duration := none, isActive := true }

/-- Witness for C1: a concrete clock-in on the empty store preserves the
invariant. -/
theorem C1_witness :
    activeUnique ([] : AttStore) ∧ activeUnique [(1, wRecC1)] :=
  ⟨by decide,
    C1_activeUnique.1 wEnvC4 [] 1 WorkingFrom.office (some 5) 777 1 wRecC1
      [(1, wRecC1)] (by decide) rfl⟩
